import Mathlib

/-!
Shallow embedding of the SES diagnostic-page codec of sg_ses.c
(sg3_utils, version 1.08 20041026).

Buffers are modelled as `List Nat` of byte values; the C decoders read from
a zero-initialised 4096-byte response buffer, so a read beyond the end of
the list is modelled by `List.getD` with default 0.  Each `printf` of a
decoder becomes one structured output event, so a decoder is a pure
function from (element map, reference generation code, buffer, declared
length) to a list of events, and control flow (truncation, stale
generation, per-element loops) is translated statement by statement from
the C source.
-/

namespace SgSes

/-- Read one byte of the response buffer (zero beyond the list, matching the
zero-initialised allocation). -/
def byteAt (resp : List Nat) (i : Nat) : Nat := resp.getD i 0

/-- `n` consecutive bytes starting at offset `off`. -/
def slice (resp : List Nat) (off n : Nat) : List Nat :=
  (List.range n).map fun i => byteAt resp (off + i)

/-- What `printf "%.*s"` shows of a byte region: the prefix before the first
NUL byte. -/
def cString (l : List Nat) : List Nat := l.takeWhile (· ≠ 0)

/-- The 32-bit big-endian word `(resp[i] << 24) | (resp[i+1] << 16) |
(resp[i+2] << 8) | resp[i+3]` used for generation codes. -/
def be32 (resp : List Nat) (i : Nat) : Nat :=
  ((byteAt resp i) <<< 24) ||| ((byteAt resp (i + 1)) <<< 16) |||
    ((byteAt resp (i + 2)) <<< 8) ||| byteAt resp (i + 3)

/-- C's `!!x`: 0 for zero, 1 for nonzero. -/
def b01 (n : Nat) : Nat := if n = 0 then 0 else 1

/-- `(int)(short)` reinterpretation of a 16-bit big-endian field. -/
def signed16 (n : Nat) : Int :=
  if n < 0x8000 then (n : Int) else (n : Int) - 0x10000

/-- Code/description table lookup shared by both catalogs: exact match, with
the early exit `page_num < pcdp->page_code -> NULL` that relies on the
tables being sorted ascending. -/
def find_desc : List (Nat × String) → Nat → Option String
  | [], _ => none
  | (c, d) :: rest, code =>
    if code = c then some d
    else if code < c then none
    else find_desc rest code

/-- pc_desc_arr: the diagnostic page code catalog. -/
def pc_desc_arr : List (Nat × String) :=
  [(0x0, "Supported diagnostic pages"),
   (0x1, "Configuration (SES)"),
   (0x2, "Enclosure status/control (SES)"),
   (0x3, "Help text (SES)"),
   (0x4, "String In/Out (SES)"),
   (0x5, "Threshold In/Out (SES)"),
   (0x6, "Array Status/Control (SES, obsolete)"),
   (0x7, "Element descriptor (SES)"),
   (0x8, "Short enclosure status (SES)"),
   (0x9, "Enclosure busy (SES-2)"),
   (0xa, "Device element status (SES-2)"),
   (0xb, "Subenclosure help text (SES-2)"),
   (0xc, "Subenclosure string In/Out (SES-2)"),
   (0xd, "Supported SES diagnostic pages (SES-2)"),
   (0x3f, "Protocol specific SAS (SAS-1)"),
   (0x40, "Translate address (SBC)"),
   (0x41, "Device status (SBC)")]

def find_page_code_desc (page_num : Nat) : Option String :=
  find_desc pc_desc_arr page_num

/-- element_desc_arr: the element type catalog. -/
def element_desc_arr : List (Nat × String) :=
  [(0x0, "Unspecified"),
   (0x1, "Device"),
   (0x2, "Power supply"),
   (0x3, "Cooling"),
   (0x4, "Temperature sense"),
   (0x5, "Door lock"),
   (0x6, "Audible alarm"),
   (0x7, "Enclosure service controller electronics"),
   (0x8, "SCC controller electronics"),
   (0x9, "Nonvolatile cache"),
   (0xa, "Invalid operation reason"),
   (0xb, "Uninterruptible power supply"),
   (0xc, "Display"),
   (0xd, "Key pad entry"),
   (0xe, "Enclosure"),
   (0xf, "SCSI port/transceiver"),
   (0x10, "Language"),
   (0x11, "Communication port"),
   (0x12, "Voltage sensor"),
   (0x13, "Current sensor"),
   (0x14, "SCSI target port"),
   (0x15, "SCSI initiator port"),
   (0x16, "Simple subenclosure"),
   (0x17, "Array device")]

def find_element_desc (type_code : Nat) : Option String :=
  find_desc element_desc_arr type_code

def element_status_desc : List String :=
  ["Unsupported", "OK", "Critical", "Non-critical",
   "Unrecoverable", "Not installed", "Unknown", "Not available",
   "reserved [8]", "reserved [9]", "reserved [10]", "reserved [11]",
   "reserved [12]", "reserved [13]", "reserved [14]", "reserved [15]"]

def actual_speed_desc : List String :=
  ["stopped", "at lowest speed", "at second lowest speed",
   "at third lowest speed", "at intermediate speed",
   "at third highest speed", "at second highest speed", "at highest speed"]

def nv_cache_unit : List String := ["Bytes", "KiB", "MiB", "GiB"]

def invop_type_desc : List String :=
  ["SEND DIAGNOSTIC page code error", "SEND DIAGNOSTIC page format error",
   "Reserved", "Vendor specific error"]

def transport_proto_arr : List String :=
  ["Fibre Channel (FCP-2)",
   "Parallel SCSI (SPI-5)",
   "SSA (SSA-S3P)",
   "IEEE 1394 (SBP-3)",
   "Remote Direct Memory Access (RDMA)",
   "Internet SCSI (iSCSI)",
   "Serial Attached SCSI (SAS)",
   "Automation/Drive Interface Transport Protocol (ADT)",
   "ATA Packet Interface (ATA/ATAPI-7)",
   "Ox9", "Oxa", "Oxb", "Oxc", "Oxd", "Oxe",
   "No specific protocol"]

def sas_device_type : List String :=
  ["no device attached",
   "end device",
   "edge expander device",
   "fanout expander device",
   "reserved [4]", "reserved [5]", "reserved [6]", "reserved [7]"]

/-- struct element_hdr (the `unused` byte, always written 0, is omitted). -/
structure ElementHdr where
  etype : Nat
  num_elements : Nat
  se_id : Nat
  deriving DecidableEq, Repr

/-- print_over_elem_status: each printf becomes one `(tag, args)` line; the
enumerated-status / speed / unit strings are folded into the tag, matching
the `%s` arguments.  The voltage and current lines carry the signed 16-bit
value; the C renders it divided by 100.0. -/
def print_over_elem_status (statp : List Nat) (etype : Nat) (filter : Bool) :
    List (String × List Int) :=
  let s : Nat → Nat := fun i => byteAt statp i
  ("Predicted failure=, swap=, status: " ++
      element_status_desc.getD (s 0 &&& 0xf) "",
   [(b01 (s 0 &&& 0x40) : Int), (b01 (s 0 &&& 0x10) : Int)]) ::
  (match etype with
   | 0 =>  -- unspecified
     [("status in hex", [(s 0 : Int), (s 1 : Int), (s 2 : Int), (s 3 : Int)])]
   | 1 =>  -- device
     ("Slot address: ", [(s 1 : Int)]) ::
     ((if !filter || (0xe0 &&& s 2 != 0) then
         [("App client bypassed A=, Do not remove=, Enc bypassed A=",
           [(b01 (s 2 &&& 0x80) : Int), (b01 (s 2 &&& 0x40) : Int),
            (b01 (s 2 &&& 0x20) : Int)])]
       else []) ++
      (if !filter || (0x1c &&& s 2 != 0) then
         [("Enc bypassed B=, Ready to insert=, RMV=, Ident=",
           [(b01 (s 2 &&& 0x10) : Int), (b01 (s 2 &&& 0x8) : Int),
            (b01 (s 2 &&& 0x4) : Int), (b01 (s 2 &&& 0x2) : Int)])]
       else []) ++
      (if !filter || ((1 &&& s 2 != 0) || (0xe0 &&& s 3 != 0)) then
         [("Report=, App client bypassed B=, Fault sensed=, Fault requested=",
           [(b01 (s 2 &&& 0x1) : Int), (b01 (s 3 &&& 0x80) : Int),
            (b01 (s 3 &&& 0x40) : Int), (b01 (s 3 &&& 0x20) : Int)])]
       else []) ++
      (if !filter || (0x1e &&& s 3 != 0) then
         [("Device off=, Bypassed A=, Bypassed B=, Device bypassed A=",
           [(b01 (s 3 &&& 0x10) : Int), (b01 (s 3 &&& 0x8) : Int),
            (b01 (s 3 &&& 0x4) : Int), (b01 (s 3 &&& 0x2) : Int)])]
       else []) ++
      (if !filter || (0x1 &&& s 3 != 0) then
         [("Device bypassed B=", [(b01 (s 3 &&& 0x1) : Int)])]
       else []))
   | 2 =>  -- power supply
     (if !filter || ((0x80 &&& s 1 != 0) || (0xe &&& s 2 != 0)) then
        [("Ident=, DC overvoltage=, DC undervoltage=, DC overcurrent=",
          [(b01 (s 1 &&& 0x80) : Int), (b01 (s 2 &&& 0x8) : Int),
           (b01 (s 2 &&& 0x4) : Int), (b01 (s 2 &&& 0x2) : Int)])]
      else []) ++
     (if !filter || (0x78 &&& s 3 != 0) then
        [("Fail=, Requested on=, Off=, Overtemperature fail=",
          [(b01 (s 3 &&& 0x40) : Int), (b01 (s 3 &&& 0x20) : Int),
           (b01 (s 3 &&& 0x10) : Int), (b01 (s 3 &&& 0x8) : Int)])]
      else []) ++
     (if !filter || (0x7 &&& s 3 != 0) then
        [("Temperature warn=, AC fail=, DC fail=",
          [(b01 (s 3 &&& 0x4) : Int), (b01 (s 3 &&& 0x2) : Int),
           (b01 (s 3 &&& 0x1) : Int)])]
      else [])
   | 3 =>  -- cooling
     (if !filter || ((0x80 &&& s 1 != 0) || (0x70 &&& s 3 != 0)) then
        [("Ident=, Fail=, Requested on=, Off=",
          [(b01 (s 1 &&& 0x80) : Int), (b01 (s 3 &&& 0x40) : Int),
           (b01 (s 3 &&& 0x20) : Int), (b01 (s 3 &&& 0x10) : Int)])]
      else []) ++
     [("Actual speed rpm, Fan " ++ actual_speed_desc.getD (7 &&& s 3) "",
       [(((((3 &&& s 1) <<< 8) + s 2) * 10 : Nat) : Int)])]
   | 4 =>  -- temperature sensor
     (if !filter || ((0x80 &&& s 1 != 0) || (0xf &&& s 3 != 0)) then
        [("Ident=, OT Failure=, OT warning=, UT failure=, UT warning=",
          [(b01 (s 1 &&& 0x80) : Int), (b01 (s 3 &&& 0x8) : Int),
           (b01 (s 3 &&& 0x4) : Int), (b01 (s 3 &&& 0x2) : Int),
           (b01 (s 3 &&& 0x1) : Int)])]
      else []) ++
     (if s 2 ≠ 0 then [("Temperature C", [(s 2 : Int) - 20])]
      else [("Temperature: <reserved>", [])])
   | 5 =>  -- door lock
     if !filter || ((0x80 &&& s 1 != 0) || (0x1 &&& s 3 != 0)) then
       [("Ident=, Unlock=",
         [(b01 (s 1 &&& 0x80) : Int), (b01 (s 3 &&& 0x1) : Int)])]
     else []
   | 6 =>  -- audible alarm
     (if !filter || ((0x80 &&& s 1 != 0) || (0xd0 &&& s 3 != 0)) then
        [("Ident=, Request mute=, Mute=, Remind=",
          [(b01 (s 1 &&& 0x80) : Int), (b01 (s 3 &&& 0x80) : Int),
           (b01 (s 3 &&& 0x40) : Int), (b01 (s 3 &&& 0x10) : Int)])]
      else []) ++
     (if !filter || (0xf &&& s 3 != 0) then
        [("Tone indicator: Info=, Non-crit=, Crit=, Unrecov=",
          [(b01 (s 3 &&& 0x8) : Int), (b01 (s 3 &&& 0x4) : Int),
           (b01 (s 3 &&& 0x2) : Int), (b01 (s 3 &&& 0x1) : Int)])]
      else [])
   | 7 =>  -- enclosure services controller electronics
     if !filter || ((0x80 &&& s 1 != 0) || (0x1 &&& s 2 != 0)) then
       [("Ident=, Report=",
         [(b01 (s 1 &&& 0x80) : Int), (b01 (s 2 &&& 0x1) : Int)])]
     else []
   | 8 =>  -- SCC controller electronics
     if !filter || ((0x80 &&& s 1 != 0) || (0x1 &&& s 2 != 0)) then
       [("Ident=, Report=",
         [(b01 (s 1 &&& 0x80) : Int), (b01 (s 2 &&& 0x1) : Int)])]
     else []
   | 9 =>  -- non volatile cache
     [("Ident=, Size multiplier=, Non volatile cache size",
       [(b01 (s 1 &&& 0x80) : Int), ((s 1 &&& 0x3 : Nat) : Int),
        (((s 2 <<< 8) + s 3 : Nat) : Int)]),
      ("Hence non volatile cache size in " ++ nv_cache_unit.getD (s 1 &&& 0x3) "",
       [(((s 2 <<< 8) + s 3 : Nat) : Int)])]
   | 0xa =>  -- invalid operation reason
     ("Invop type: " ++ invop_type_desc.getD ((s 1 >>> 6) &&& 3) "",
      [(((s 1 >>> 6) &&& 3 : Nat) : Int)]) ::
     (if (s 1 >>> 6) &&& 3 = 0 then
        [("Page not supported=", [((s 1 &&& 1 : Nat) : Int)])]
      else if (s 1 >>> 6) &&& 3 = 1 then
        [("Byte offset=, bit number=",
          [(((s 2 <<< 8) + s 3 : Nat) : Int), ((s 1 &&& 7 : Nat) : Int)])]
      else
        [("last 3 bytes hex", [(s 1 : Int), (s 2 : Int), (s 3 : Int)])])
   | 0xb =>  -- uninterruptible power supply
     (if s 1 = 0 then ("Battery status: discharged or unknown", [])
      else if s 1 = 255 then ("Battery status: 255 or more minutes remaining", [])
      else ("Battery status minutes remaining", [(s 1 : Int)])) ::
     ((if !filter || (0xf8 &&& s 2 != 0) then
         [("AC low=, AC high=, AC qual=, AC fail=, DC fail=",
           [(b01 (s 2 &&& 0x80) : Int), (b01 (s 2 &&& 0x40) : Int),
            (b01 (s 2 &&& 0x20) : Int), (b01 (s 2 &&& 0x10) : Int),
            (b01 (s 2 &&& 0x8) : Int)])]
       else []) ++
      (if !filter || ((0x7 &&& s 2 != 0) || (0x83 &&& s 3 != 0)) then
         [("UPS fail=, Warn=, Intf fail=, Ident=, Batt fail=, BPF=",
           [(b01 (s 2 &&& 0x4) : Int), (b01 (s 2 &&& 0x2) : Int),
            (b01 (s 2 &&& 0x1) : Int), (b01 (s 3 &&& 0x80) : Int),
            (b01 (s 3 &&& 0x2) : Int), (b01 (s 3 &&& 0x1) : Int)])]
       else []))
   | 0xc =>  -- display
     if !filter || (0x80 &&& s 1 != 0) then
       [("Ident=", [(b01 (s 1 &&& 0x80) : Int)])]
     else []
   | 0xd =>  -- key pad entry
     if !filter || (0x80 &&& s 1 != 0) then
       [("Ident=", [(b01 (s 1 &&& 0x80) : Int)])]
     else []
   | 0xe =>  -- enclosure
     (if !filter || ((0x80 &&& s 1 != 0) || (0x3 &&& s 2 != 0)) then
        [("Ident=, Failure indication=, Warning indication=",
          [(b01 (s 1 &&& 0x80) : Int), (b01 (s 2 &&& 0x2) : Int),
           (b01 (s 2 &&& 0x1) : Int)])]
      else []) ++
     (if !filter || (0x3 &&& s 3 != 0) then
        [("Failure requested=, Warning requested=",
          [(b01 (s 3 &&& 0x2) : Int), (b01 (s 3 &&& 0x1) : Int)])]
      else [])
   | 0xf =>  -- SCSI port/transceiver
     if !filter || ((0x80 &&& s 1 != 0) || (0x1 &&& s 2 != 0) ||
                    (0x13 &&& s 3 != 0)) then
       [("Ident=, Report=, disabled=, loss of link=, Xmit fail=",
         [(b01 (s 1 &&& 0x80) : Int), (b01 (s 2 &&& 0x1) : Int),
          (b01 (s 3 &&& 0x10) : Int), (b01 (s 3 &&& 0x2) : Int),
          (b01 (s 3 &&& 0x1) : Int)])]
     else []
   | 0x10 =>  -- language
     [("Ident=, Language code",
       [(b01 (s 1 &&& 0x80) : Int), (s 2 : Int), (s 3 : Int)])]
   | 0x11 =>  -- communication port
     if !filter || ((0x80 &&& s 1 != 0) || (0x1 &&& s 3 != 0)) then
       [("Ident=, Disabled=",
         [(b01 (s 1 &&& 0x80) : Int), (b01 (s 3 &&& 0x1) : Int)])]
     else []
   | 0x12 =>  -- voltage sensor
     (if !filter || (0x8f &&& s 1 != 0) then
        [("Ident=, Warn Over=, Warn Under=, Crit Over=, Crit Under=",
          [(b01 (s 1 &&& 0x80) : Int), (b01 (s 1 &&& 0x8) : Int),
           (b01 (s 1 &&& 0x4) : Int), (b01 (s 1 &&& 0x2) : Int),
           (b01 (s 1 &&& 0x1) : Int)])]
      else []) ++
     [("Voltage in centivolts (C prints value / 100.0)",
       [signed16 ((s 2 <<< 8) + s 3)])]
   | 0x13 =>  -- current sensor
     (if !filter || (0x8a &&& s 1 != 0) then
        [("Ident=, Warn Over=, Crit Over=",
          [(b01 (s 1 &&& 0x80) : Int), (b01 (s 1 &&& 0x8) : Int),
           (b01 (s 1 &&& 0x2) : Int)])]
      else []) ++
     [("Current in centiamps (C prints value / 100.0)",
       [signed16 ((s 2 <<< 8) + s 3)])]
   | 0x14 =>  -- SCSI target port
     if !filter || ((0x80 &&& s 1 != 0) || (0x1 &&& s 2 != 0) ||
                    (0x1 &&& s 3 != 0)) then
       [("Ident=, Report=, Enabled=",
         [(b01 (s 1 &&& 0x80) : Int), (b01 (s 2 &&& 0x1) : Int),
          (b01 (s 3 &&& 0x1) : Int)])]
     else []
   | 0x15 =>  -- SCSI initiator port
     if !filter || ((0x80 &&& s 1 != 0) || (0x1 &&& s 2 != 0) ||
                    (0x1 &&& s 3 != 0)) then
       [("Ident=, Report=, Enabled=",
         [(b01 (s 1 &&& 0x80) : Int), (b01 (s 2 &&& 0x1) : Int),
          (b01 (s 3 &&& 0x1) : Int)])]
     else []
   | 0x16 =>  -- simple subenclosure
     [("Ident=, Short enclosure status",
       [(b01 (s 1 &&& 0x80) : Int), (s 3 : Int)])]
   | 0x17 =>  -- array device
     (if !filter || (0xf0 &&& s 1 != 0) then
        [("OK=, Reserved device=, Hot spare=, Cons check=",
          [(b01 (s 1 &&& 0x80) : Int), (b01 (s 1 &&& 0x40) : Int),
           (b01 (s 1 &&& 0x20) : Int), (b01 (s 1 &&& 0x10) : Int)])]
      else []) ++
     (if !filter || (0xf &&& s 1 != 0) then
        [("In crit array=, In failed array=, Rebuild/remap=, R/R abort=",
          [(b01 (s 1 &&& 0x8) : Int), (b01 (s 1 &&& 0x4) : Int),
           (b01 (s 1 &&& 0x2) : Int), (b01 (s 1 &&& 0x1) : Int)])]
      else []) ++
     (if !filter || (0xf0 &&& s 2 != 0) then
        [("App client bypass A=, Dont remove=, Enc bypass A=, Enc bypass B=",
          [(b01 (s 2 &&& 0x80) : Int), (b01 (s 2 &&& 0x40) : Int),
           (b01 (s 2 &&& 0x20) : Int), (b01 (s 2 &&& 0x10) : Int)])]
      else []) ++
     (if !filter || (0xf &&& s 2 != 0) then
        [("Ready to insert=, RMV=, Ident=, Report=",
          [(b01 (s 2 &&& 0x8) : Int), (b01 (s 2 &&& 0x4) : Int),
           (b01 (s 2 &&& 0x2) : Int), (b01 (s 2 &&& 0x1) : Int)])]
      else []) ++
     (if !filter || (0xf0 &&& s 3 != 0) then
        [("App client bypass B=, Fault sensed=, Fault reqstd=, Device off=",
          [(b01 (s 3 &&& 0x80) : Int), (b01 (s 3 &&& 0x40) : Int),
           (b01 (s 3 &&& 0x20) : Int), (b01 (s 3 &&& 0x10) : Int)])]
      else []) ++
     (if !filter || (0xf &&& s 3 != 0) then
        [("Bypassed A=, Bypassed B=, Dev bypassed A=, Dev bypassed B=",
          [(b01 (s 3 &&& 0x8) : Int), (b01 (s 3 &&& 0x4) : Int),
           (b01 (s 3 &&& 0x2) : Int), (b01 (s 3 &&& 0x1) : Int)])]
      else [])
   | _ =>
     [("Unknown element type, status in hex",
       [(s 0 : Int), (s 1 : Int), (s 2 : Int), (s 3 : Int)])])

/-- reserved_or_num: "<res>" at the reserved value, decimal otherwise. -/
def reserved_or_num (num reserve_num : Int) : String :=
  if num = reserve_num then "<res>" else toString num

/-- ses_threshold_helper: the `pad` indentation argument is dropped; `p_num`
is -1 for the overall threshold as in the C. -/
def ses_threshold_helper (tp : List Nat) (etype : Nat) (p_num : Int)
    (inner_hex : Bool) : List (String × List Int) :=
  let t : Nat → Nat := fun i => byteAt tp i
  let buff : String :=
    if p_num < 0 then "Overall threshold"
    else "Element " ++ toString (p_num + 1) ++ " threshold"
  if inner_hex then
    [(buff ++ " (in hex)", [(t 0 : Int), (t 1 : Int), (t 2 : Int), (t 3 : Int)])]
  else
    match etype with
    | 0x4 =>  -- temperature
      [(buff ++ ": high critical=" ++ reserved_or_num ((t 0 : Int) - 20) (-20) ++
          ", high warning=" ++ reserved_or_num ((t 1 : Int) - 20) (-20), []),
       ("low warning=" ++ reserved_or_num ((t 2 : Int) - 20) (-20) ++
          ", low critical=" ++ reserved_or_num ((t 3 : Int) - 20) (-20) ++
          " (in degrees Celsius)", [])]
    | 0xb =>  -- UPS
      [(buff ++ ": low warning=" ++
          (if t 2 = 0 then "<vendor>" else toString (t 2)), []),
       ("low critical=" ++
          (if t 3 = 0 then "<vendor>" else toString (t 3)) ++
          " (in minutes)", [])]
    | 0x12 =>  -- voltage
      [(buff ++ ": high critical=, high warning= (in half-percent steps)",
        [(t 0 : Int), (t 1 : Int)]),
       ("low warning=, low critical= (from nominal voltage, half-percent steps)",
        [(t 2 : Int), (t 3 : Int)])]
    | 0x13 =>  -- current
      [(buff ++ ": high critical=, high warning= (in half-percent steps)",
        [(t 0 : Int), (t 1 : Int)]),
       ("(above nominal current)", [])]
    | _ => []

/-- One 16-byte FCP port record of ses_transport_proto, protocol id 0. -/
structure FcpPort where
  label : Nat
  loopPos : Nat
  hardAddr : Nat
  nportId : List Nat
  nportName : List Nat
  deriving DecidableEq, Repr

/-- One 28-byte SAS phy record of ses_transport_proto, protocol id 6.  The
`label` field holds the number printed in the `[%d] device type:` line;
the C passes `phys + 1` there.  Role flags model the conditional
"SSP"/"STP"/"SMP" strings. -/
structure SasPhy where
  label : Nat
  deviceType : String
  sspInit : Bool
  stpInit : Bool
  smpInit : Bool
  sspTarg : Bool
  stpTarg : Bool
  smpTarg : Bool
  attachedAddr : List Nat
  ownAddr : List Nat
  phyId : Nat
  deriving DecidableEq, Repr

/-- The SAS phy record printed from the 28-byte region starting at `poff`
(`per_ucp` in the C); `phys` is the phy count of the descriptor. -/
def mkSasPhy (ucp : List Nat) (phys poff : Nat) : SasPhy :=
  { label := phys + 1  -- C line 1038 prints phys + 1, not the loop index j + 1
    deviceType := sas_device_type.getD ((0x70 &&& byteAt ucp (poff + 4)) >>> 4) ""
    sspInit := (byteAt ucp (poff + 6) &&& 8) != 0
    stpInit := (byteAt ucp (poff + 6) &&& 4) != 0
    smpInit := (byteAt ucp (poff + 6) &&& 2) != 0
    sspTarg := (byteAt ucp (poff + 7) &&& 8) != 0
    stpTarg := (byteAt ucp (poff + 7) &&& 4) != 0
    smpTarg := (byteAt ucp (poff + 7) &&& 2) != 0
    attachedAddr := slice ucp (poff + 8) 8
    ownAddr := slice ucp (poff + 16) 8
    phyId := byteAt ucp (poff + 24) }

/-- The SAS per-phy loop: `n` iterations, cursor advancing 28 bytes each. -/
def sasPhyLoop (ucp : List Nat) (phys : Nat) : Nat → Nat → List SasPhy
  | 0, _ => []
  | n + 1, poff => mkSasPhy ucp phys poff :: sasPhyLoop ucp phys n (poff + 28)

/-- The FCP per-port loop: `n` iterations, cursor advancing 16 bytes. -/
def fcpPortLoop (ucp : List Nat) : Nat → Nat → Nat → List FcpPort
  | 0, _, _ => []
  | n + 1, j, poff =>
    { label := j + 1, loopPos := byteAt ucp poff, hardAddr := byteAt ucp (poff + 4),
      nportId := slice ucp (poff + 5) 3, nportName := slice ucp (poff + 8) 8 } ::
    fcpPortLoop ucp n (j + 1) (poff + 16)

/-- Structured output of ses_transport_proto for one element descriptor. -/
inductive TransportOut where
  | fcp (label ports : Nat) (nodeName : List Nat) (portRecs : List FcpPort)
  | sas (label phys notAllPhys : Nat) (phyRecs : List SasPhy)
  | other (label : Nat) (protoName : String) (hexBytes : List Nat)
  deriving DecidableEq, Repr

/-- ses_transport_proto: switch on the low nibble of byte 0. -/
def ses_transport_proto (ucp : List Nat) (len : Nat) (elem_num : Nat) :
    TransportOut :=
  if 0xf &&& byteAt ucp 0 = 0 then
    .fcp (elem_num + 1) (byteAt ucp 2) (slice ucp 4 8)
      (fcpPortLoop ucp (byteAt ucp 2) 0 12)
  else if 0xf &&& byteAt ucp 0 = 6 then
    .sas (elem_num + 1) (byteAt ucp 2) (byteAt ucp 3 &&& 1)
      (sasPhyLoop ucp (byteAt ucp 2) (byteAt ucp 2) 4)
  else
    .other (elem_num + 1) (transport_proto_arr.getD (0xf &&& byteAt ucp 0) "")
      (slice ucp 4 (len - 4))

/-- Output events of the page decoders: one constructor per printf shape.
`truncatedMsg` is the `<<<response too short>>>` message of each decoder's
`truncated:` label, `stale` the `<<state of enclosure changed, please try
again>>` message. -/
inductive Event where
  | pageHeader (title : String)
  | info (tag : String) (args : List Int)
  | bytes (tag : String) (data : List Nat)
  | genCode (g : Nat)
  | stale
  | truncatedMsg
  | shortDescWarn (el : Nat)
  | typeHeader (desc : Option String) (etype se_id : Nat)
  | possibleCount (n : Nat)
  | overall (lines : List (String × List Int))
  | overallHex (b0 b1 b2 b3 : Nat)
  | element (idx : Nat) (lines : List (String × List Int))
  | elementHex (idx b0 b1 b2 b3 : Nat)
  | overallDesc (text : List Nat)
  | overallDescEmpty
  | elementDesc (idx : Nat) (text : List Nat)
  | elementDescEmpty (idx : Nat)
  | subencId (id : Nat)
  | subencText (text : List Nat)
  | subencEmpty
  | transport (t : TransportOut)
  deriving DecidableEq, Repr

/-! ### Configuration page (ses_configuration_sdg) -/

/-- Subenclosure descriptor loop of ses_configuration_sdg: `count`
iterations from offset `off`, threading the running `sum_elem_types`.
Returns the events plus, unless truncation aborted the page, the final
cursor and element-type sum. -/
def configSubencWalk (resp : List Nat) (resp_len : Nat) :
    Nat → Nat → Nat → List Event × Option (Nat × Nat)
  | 0, off, sum => ([], some (off, sum))
  | k + 1, off, sum =>
    if off + 4 > resp_len - 1 then ([.truncatedMsg], none)
    else
      let el := byteAt resp (off + 3) + 4
      let sum' := sum + byteAt resp (off + 2)
      let hdr : List Event :=
        [.info "Subenclosure identifier" [(byteAt resp (off + 1) : Int)],
         .info "relative e.s. process id, number of e.s. processes"
           [(((byteAt resp off &&& 0x70) >>> 4 : Nat) : Int),
            ((byteAt resp off &&& 0x7 : Nat) : Int)],
         .info "number of element types supported" [(byteAt resp (off + 2) : Int)]]
      if el < 40 then
        let (evs, r) := configSubencWalk resp resp_len k (off + el) sum'
        (hdr ++ .shortDescWarn el :: evs, r)
      else
        let body : List Event :=
          [.bytes "logical id" (slice resp (off + 4) 8),
           .bytes "vendor" (cString (slice resp (off + 12) 8)),
           .bytes "product" (cString (slice resp (off + 20) 16)),
           .bytes "rev" (cString (slice resp (off + 36) 4))] ++
          (if el > 40 then
             [.bytes "vendor-specific data" (slice resp (off + 40) (el - 40))]
           else [])
        let (evs, r) := configSubencWalk resp resp_len k (off + el) sum'
        (hdr ++ body ++ evs, r)

/-- Element-type declaration loop of ses_configuration_sdg: `count`
4-byte records from `off`, with trailing description text consumed from
`text_off` (`text_ucp` in the C). -/
def configElemWalk (resp : List Nat) (resp_len : Nat) :
    Nat → Nat → Nat → List Event
  | 0, _, _ => []
  | k + 1, off, text_off =>
    if off + 4 > resp_len - 1 then [.truncatedMsg]
    else
      .typeHeader (find_element_desc (byteAt resp off)) (byteAt resp off)
        (byteAt resp (off + 2)) ::
      .possibleCount (byteAt resp (off + 1)) ::
      (if byteAt resp (off + 3) > 0 then
         if text_off > resp_len - 1 then [.truncatedMsg]
         else
           .bytes "Description" (cString (slice resp text_off (byteAt resp (off + 3)))) ::
           configElemWalk resp resp_len k (off + 4) (text_off + byteAt resp (off + 3))
       else configElemWalk resp resp_len k (off + 4) text_off)

/-- ses_configuration_sdg.  Note: the generation code is read from offsets
4..7 after only the `resp_len < 4` check, exactly as in the C. -/
def ses_configuration_sdg (resp : List Nat) (resp_len : Nat) : List Event :=
  .pageHeader "Configuration diagnostic page" ::
  (if resp_len < 4 then [.truncatedMsg]
   else
     .info "number of subenclosures (other than primary)"
       [(byteAt resp 1 : Int)] ::
     .genCode (be32 resp 4) ::
     (match configSubencWalk resp resp_len (byteAt resp 1 + 1) 8 0 with
      | (evs, none) => evs
      | (evs, some (off, sum)) =>
        evs ++ configElemWalk resp resp_len sum off (off + sum * 4)))

/-! ### populate_element_hdr_arr (parse part)

The fetch (do_rcvdiag of page 1) is an external transport operation; the
rest of populate_element_hdr_arr is a pure parse of the fetched buffer,
embedded here over the raw response bytes. -/

/-- Response length computed by populate_element_hdr_arr / ses_process_status:
`(resp[2] << 8) + resp[3] + 4`, clamped to the 4096-byte buffer. -/
def respLenOf (resp : List Nat) : Nat :=
  min (((byteAt resp 2) <<< 8) + byteAt resp 3 + 4) 4096

/-- Subenclosure descriptor loop of populate_element_hdr_arr (no output):
returns the final cursor and element-type sum, or `none` on truncation.
The `el < 40` case only skips printing; cursor and sum advance the same. -/
def popSubencWalk (resp : List Nat) (resp_len : Nat) :
    Nat → Nat → Nat → Option (Nat × Nat)
  | 0, off, sum => some (off, sum)
  | k + 1, off, sum =>
    if off + 4 > resp_len - 1 then none
    else
      popSubencWalk resp resp_len k (off + (byteAt resp (off + 3) + 4))
        (sum + byteAt resp (off + 2))

inductive ElemWalkRes where
  | truncated
  | tooMany
  | done (hdrs : List ElementHdr)
  deriving DecidableEq, Repr

/-- Element-type loop of populate_element_hdr_arr: the truncation guard runs
before the `k >= MX_ELEM_HDR` (512) check, which fires before a 513th
header would be stored. -/
def popElemWalk (resp : List Nat) (resp_len : Nat) :
    Nat → Nat → Nat → List ElementHdr → ElemWalkRes
  | 0, _, _, acc => .done acc.reverse
  | r + 1, k, off, acc =>
    if off + 4 > resp_len - 1 then .truncated
    else if k ≥ 512 then .tooMany
    else
      popElemWalk resp resp_len r (k + 1) (off + 4)
        (⟨byteAt resp off, byteAt resp (off + 1), byteAt resp (off + 2)⟩ :: acc)

inductive PopResult where
  | badPage
  | tooShort
  | tooManyElements
  | ok (hdrs : List ElementHdr) (gen : Nat)
  deriving DecidableEq, Repr

/-- Result of the element-type loop of populate_element_hdr_arr, mapped to
the function's return value (-1 with the respective message, or the header
array plus the generation code recorded through `generationp`). -/
def populate_elem_part (resp : List Nat) (off sum : Nat) : PopResult :=
  match popElemWalk resp (respLenOf resp) sum 0 off [] with
  | .truncated => .tooShort
  | .tooMany => .tooManyElements
  | .done hdrs => .ok hdrs (be32 resp 4)

/-- The parse of populate_element_hdr_arr over a fetched Configuration
response.  `badPage` covers the busy / short-status / wrong-page-code
branches, which all return -1 before parsing. -/
def populate_parse (resp : List Nat) : PopResult :=
  if byteAt resp 0 ≠ 1 then .badPage
  else if respLenOf resp < 4 then .tooShort
  else
    match popSubencWalk resp (respLenOf resp) (byteAt resp 1 + 1) 8 0 with
    | none => .tooShort
    | some (off, sum) => populate_elem_part resp off sum

/-! ### Enclosure status page (ses_enclosure_sdg) -/

/-- Individual-element loop of ses_enclosure_sdg: note there is no bounds
check inside this loop in the C; all `num_elements` records are read. -/
def enclElemLoop (resp : List Nat) (inner_hex filter : Bool) (etype : Nat) :
    Nat → Nat → Nat → List Event
  | 0, _, _ => []
  | n + 1, j, off =>
    (if inner_hex then
       Event.elementHex (j + 1) (byteAt resp off) (byteAt resp (off + 1))
         (byteAt resp (off + 2)) (byteAt resp (off + 3))
     else
       Event.element (j + 1) (print_over_elem_status (slice resp off 4) etype filter)) ::
    enclElemLoop resp inner_hex filter etype n (j + 1) (off + 4)

/-- Per-element-type loop of ses_enclosure_sdg: the `(ucp + 4) > last_ucp`
guard runs only before each type's overall record. -/
def enclStatusWalk (resp : List Nat) (resp_len : Nat) (inner_hex filter : Bool) :
    List ElementHdr → Nat → List Event
  | [], _ => []
  | h :: rest, off =>
    if off + 4 > resp_len - 1 then [.truncatedMsg]
    else
      .typeHeader (find_element_desc h.etype) h.etype h.se_id ::
      (if inner_hex then
         Event.overallHex (byteAt resp off) (byteAt resp (off + 1))
           (byteAt resp (off + 2)) (byteAt resp (off + 3))
       else
         Event.overall (print_over_elem_status (slice resp off 4) h.etype filter)) ::
      (enclElemLoop resp inner_hex filter h.etype h.num_elements 0 (off + 4) ++
       enclStatusWalk resp resp_len inner_hex filter rest
         (off + 4 + 4 * h.num_elements))

/-- ses_enclosure_sdg. -/
def ses_enclosure_sdg (ehp : List ElementHdr) (ref_gen_code : Nat)
    (resp : List Nat) (resp_len : Nat) (inner_hex filter : Bool) : List Event :=
  .pageHeader "Enclosure status diagnostic page" ::
  (if resp_len < 4 then [.truncatedMsg]
   else
     .info "INVOP=, INFO=, NON-CRIT=, CRIT=, UNRECOV="
       [(b01 (byteAt resp 1 &&& 0x10) : Int), (b01 (byteAt resp 1 &&& 0x8) : Int),
        (b01 (byteAt resp 1 &&& 0x4) : Int), (b01 (byteAt resp 1 &&& 0x2) : Int),
        (b01 (byteAt resp 1 &&& 0x1) : Int)] ::
     (if resp_len < 8 then [.truncatedMsg]
      else
        .genCode (be32 resp 4) ::
        (if ref_gen_code ≠ be32 resp 4 then [.stale]
         else enclStatusWalk resp resp_len inner_hex filter ehp 8)))

/-! ### Threshold In page (ses_threshold_sdg) -/

/-- Individual-element loop of ses_threshold_sdg: unguarded, like the
enclosure one. -/
def thrElemLoop (resp : List Nat) (inner_hex : Bool) (etype : Nat) :
    Nat → Nat → Nat → List Event
  | 0, _, _ => []
  | n + 1, j, off =>
    Event.element (j + 1) (ses_threshold_helper (slice resp off 4) etype (j : Int) inner_hex) ::
    thrElemLoop resp inner_hex etype n (j + 1) (off + 4)

def thrWalk (resp : List Nat) (resp_len : Nat) (inner_hex : Bool) :
    List ElementHdr → Nat → List Event
  | [], _ => []
  | h :: rest, off =>
    if off + 4 > resp_len - 1 then [.truncatedMsg]
    else
      .typeHeader (find_element_desc h.etype) h.etype h.se_id ::
      .overall (ses_threshold_helper (slice resp off 4) h.etype (-1) inner_hex) ::
      (thrElemLoop resp inner_hex h.etype h.num_elements 0 (off + 4) ++
       thrWalk resp resp_len inner_hex rest (off + 4 + 4 * h.num_elements))

/-- ses_threshold_sdg. -/
def ses_threshold_sdg (ehp : List ElementHdr) (ref_gen_code : Nat)
    (resp : List Nat) (resp_len : Nat) (inner_hex : Bool) : List Event :=
  .pageHeader "Threshold In diagnostic page" ::
  (if resp_len < 4 then [.truncatedMsg]
   else
     .info "INVOP=" [(b01 (byteAt resp 1 &&& 0x10) : Int)] ::
     (if resp_len < 8 then [.truncatedMsg]
      else
        .genCode (be32 resp 4) ::
        (if ref_gen_code ≠ be32 resp 4 then [.stale]
         else thrWalk resp resp_len inner_hex ehp 8)))

/-! ### Element descriptor page (ses_element_desc_sdg) -/

/-- Per-element inner loop of ses_element_desc_sdg: in the C there is no
bounds check before reading each record's 2-byte length field or its text,
and the cursor advance is data-dependent, so the final cursor is returned
for the outer walk. -/
def elemDescInner (resp : List Nat) : Nat → Nat → Nat → List Event × Nat
  | 0, _, off => ([], off)
  | n + 1, j, off =>
    let desc_len := ((byteAt resp (off + 2)) <<< 8) + byteAt resp (off + 3) + 4
    let ev : Event :=
      if desc_len > 4 then
        .elementDesc (j + 1) (cString (slice resp (off + 4) (desc_len - 4)))
      else .elementDescEmpty (j + 1)
    let (evs, off') := elemDescInner resp n (j + 1) (off + desc_len)
    (ev :: evs, off')

/-- Per-element-type walk of ses_element_desc_sdg: the `(ucp + 4) >
last_ucp` guard runs only before each type's overall record. -/
def elemDescWalk (resp : List Nat) (resp_len : Nat) :
    List ElementHdr → Nat → List Event
  | [], _ => []
  | h :: rest, off =>
    if off + 4 > resp_len - 1 then [.truncatedMsg]
    else
      let desc_len := ((byteAt resp (off + 2)) <<< 8) + byteAt resp (off + 3) + 4
      .typeHeader (find_element_desc h.etype) h.etype h.se_id ::
      (if desc_len > 4 then
         Event.overallDesc (cString (slice resp (off + 4) (desc_len - 4)))
       else Event.overallDescEmpty) ::
      (let (evs, off') := elemDescInner resp h.num_elements 0 (off + desc_len)
       evs ++ elemDescWalk resp resp_len rest off')

/-- ses_element_desc_sdg. -/
def ses_element_desc_sdg (ehp : List ElementHdr) (ref_gen_code : Nat)
    (resp : List Nat) (resp_len : Nat) : List Event :=
  .pageHeader "Element descriptor In diagnostic page" ::
  (if resp_len < 4 then [.truncatedMsg]
   else if resp_len < 8 then [.truncatedMsg]
   else
     .genCode (be32 resp 4) ::
     (if ref_gen_code ≠ be32 resp 4 then [.stale]
      else elemDescWalk resp resp_len ehp 8))

/-! ### Device element status page (ses_device_elem_sdg) -/

/-- Per-element transport-descriptor loop: `desc_len = ucp[1] + 2`, read
with no bounds check; returns the final cursor. -/
def devInner (resp : List Nat) : Nat → Nat → Nat → List Event × Nat
  | 0, _, off => ([], off)
  | n + 1, j, off =>
    let desc_len := byteAt resp (off + 1) + 2
    let ev : Event := .transport (ses_transport_proto (resp.drop off) desc_len j)
    let (evs, off') := devInner resp n (j + 1) (off + desc_len)
    (ev :: evs, off')

/-- Per-element-type walk of ses_device_elem_sdg: non-device types are
skipped by `continue` without advancing the cursor, as in the C. -/
def devWalk (resp : List Nat) (resp_len : Nat) :
    List ElementHdr → Nat → List Event
  | [], _ => []
  | h :: rest, off =>
    if off + 2 > resp_len - 1 then [.truncatedMsg]
    else if h.etype ≠ 1 ∧ h.etype ≠ 0x17 then devWalk resp resp_len rest off
    else
      .typeHeader (find_element_desc h.etype) h.etype h.se_id ::
      (let (evs, off') := devInner resp h.num_elements 0 off
       evs ++ devWalk resp resp_len rest off')

/-- ses_device_elem_sdg: the generation code is read after only the
`resp_len < 4` check (there is no `resp_len < 8` guard in this decoder). -/
def ses_device_elem_sdg (ehp : List ElementHdr) (ref_gen_code : Nat)
    (resp : List Nat) (resp_len : Nat) : List Event :=
  .pageHeader "Device element status diagnostic page" ::
  (if resp_len < 4 then [.truncatedMsg]
   else
     .genCode (be32 resp 4) ::
     (if ref_gen_code ≠ be32 resp 4 then [.stale]
      else devWalk resp resp_len ehp 8))

/-! ### Subenclosure help text page (ses_subenc_help_sdg) -/

/-- Per-subenclosure loop of ses_subenc_help_sdg: the cursor is checked
before each record's 4-byte header, but the `el - 4` text bytes are
printed with no check. -/
def helpWalk (resp : List Nat) (resp_len : Nat) : Nat → Nat → List Event
  | 0, _ => []
  | k + 1, off =>
    if off + 4 > resp_len - 1 then [.truncatedMsg]
    else
      let el := ((byteAt resp (off + 2)) <<< 8) + byteAt resp (off + 3) + 4
      .subencId (byteAt resp (off + 1)) ::
      (if el > 4 then Event.subencText (cString (slice resp (off + 4) (el - 4)))
       else Event.subencEmpty) ::
      helpWalk resp resp_len k (off + el)

/-- ses_subenc_help_sdg: like the configuration page, the generation code
is read from offsets 4..7 after only the `resp_len < 4` check. -/
def ses_subenc_help_sdg (resp : List Nat) (resp_len : Nat) : List Event :=
  .pageHeader "Subenclosure help text diagnostic page" ::
  (if resp_len < 4 then [.truncatedMsg]
   else
     .info "number of subenclosures (other than primary)"
       [(byteAt resp 1 : Int)] ::
     .genCode (be32 resp 4) ::
     helpWalk resp resp_len (byteAt resp 1 + 1) 8)

/-! ### Supported pages (ses_supported_pages_sdg) -/

/-- The byte window `resp[4] .. resp[resp_len - 1]` walked by
ses_supported_pages_sdg (empty when `resp_len <= 4`, matching the C's
`k < resp_len - 4` loop bound). -/
def pageBytes (resp : List Nat) (resp_len : Nat) : List Nat :=
  (List.range (resp_len - 4)).map fun k => byteAt resp (k + 4)

/-- The walk of ses_supported_pages_sdg: `prev` starts at 0 and the loop
breaks at the first byte numerically below its predecessor (treated as
trailing padding). -/
def supportedWalk : Nat → List Nat → List Nat
  | _, [] => []
  | prev, code :: rest =>
    if code < prev then [] else code :: supportedWalk code rest

/-- ses_supported_pages_sdg: each surviving byte is resolved through
find_page_code_desc, `<unknown>` when absent. -/
def ses_supported_pages_sdg (resp : List Nat) (resp_len : Nat) :
    List (String × Nat) :=
  (supportedWalk 0 (pageBytes resp resp_len)).map fun code =>
    ((find_page_code_desc code).getD "<unknown>", code)

/-! ### ses_process_status: order of transport receives

ses_process_status first issues do_rcvdiag for the requested page; only
then, for the element-keyed pages (0x02, 0x05, 0x07, 0x0a) on the decode
path, does populate_element_hdr_arr issue do_rcvdiag for the Configuration
page (code 1).  `fetch` models the transport receive collaborator; the
returned list is the sequence of page codes requested from it. -/
def ses_process_status_fetches (fetch : Nat → Option (List Nat))
    (page_code : Nat) (do_raw do_hex : Bool) : List Nat :=
  page_code ::
    (match fetch page_code with
     | none => []
     | some rsp =>
       if page_code ≠ byteAt rsp 0 then []
       else if do_raw then []
       else if do_hex then []
       else if page_code = 2 ∨ page_code = 5 ∨ page_code = 7 ∨ page_code = 10 then
         [1]  -- populate_element_hdr_arr fetches the Configuration page
       else [])

/-! ### Concrete buffers used by the claim theorems -/

/-- Scenario A configuration page: 1 subenclosure whose 40-byte descriptor
declares 2 element types, followed by element-type records Device(3
possible, subenclosure 0) and Power supply(1 possible, subenclosure 0);
declared page length 56, so resp_len = 60. -/
def cfgScenA (g0 g1 g2 g3 : Nat) : List Nat :=
  [1, 0, 0, 56, g0, g1, g2, g3] ++
  ([0, 0, 2, 36] ++ List.replicate 36 0) ++
  [1, 3, 0, 0] ++ [2, 1, 0, 0]

/-- Enclosure status page for one Device element type with 2 elements:
generation code 7, overall record at offset 8, individual records at
offsets 12 and 16; declared resp_len 20. -/
def enclB : List Nat :=
  [2, 0, 0, 16, 0, 0, 0, 7, 1, 0, 0, 0,
   0x41, 0x42, 0x43, 0x44, 0x45, 0x46, 0x47, 0x48]

def ehpE : List ElementHdr := [⟨1, 2, 0⟩]

/-- Element descriptor page for one element type with 1 element:
generation code 3, overall descriptor text "AB", element descriptor text
"CD"; declared resp_len 20. -/
def edB : List Nat :=
  [7, 0, 0, 16, 0, 0, 0, 3, 0, 0, 0, 2, 0x41, 0x42, 0, 0, 0, 2, 0x43, 0x44]

def ehpD : List ElementHdr := [⟨1, 1, 0⟩]

/-- Subenclosure help page with one subenclosure record of 6 text bytes;
declared resp_len 18. -/
def helpB : List Nat :=
  [0xb, 0, 0, 14, 0, 0, 0, 0, 0, 5, 0, 6, 0x41, 0x42, 0x43, 0x44, 0x45, 0x46]

/-- A target page (page code 2) whose generation code is 5, for the
stale-path theorems. -/
def staleB : List Nat := [2, 0, 0, 8, 0, 0, 0, 5]

/-- Configuration page reaching a 513th element-type record in bounds: 3
subenclosures declaring 255 + 255 + 3 = 513 element types, declared
length 2296 (resp_len 2300); all element records are zero bytes. -/
def cfgMany : List Nat :=
  [1, 2, 8, 0xf8, 0, 0, 0, 0] ++
  ([0, 0, 255, 36] ++ List.replicate 36 0) ++
  ([0, 1, 255, 36] ++ List.replicate 36 0) ++
  ([0, 2, 3, 36] ++ List.replicate 36 0)

/-- A SAS transport descriptor (protocol id 6) with 2 phys, for the per-phy
label theorem. -/
def sasW : List Nat := [6, 0, 2, 1]

/-! ## Helper lemmas -/

/-- If the bytes before `b` ascend from `prev` and `b` drops below the last
of them, the supported-pages walk emits exactly those bytes and stops. -/
theorem supportedWalk_append_stop (prev : Nat) (l1 : List Nat) (b : Nat)
    (l2 : List Nat) (hchain : List.Chain (· ≤ ·) prev l1)
    (hb : b < (prev :: l1).getLast (List.cons_ne_nil _ _)) :
    supportedWalk prev (l1 ++ b :: l2) = l1 := by
  induction l1 generalizing prev with
  | nil =>
    have hb' : b < prev := hb
    simp only [List.nil_append, supportedWalk, if_pos hb']
  | cons a t ihh =>
    rw [List.chain_cons] at hchain
    obtain ⟨hpa, hct⟩ := hchain
    simp only [List.cons_append, supportedWalk]
    rw [if_neg (by omega)]
    rw [List.getLast_cons (List.cons_ne_nil a t)] at hb
    exact congrArg (a :: ·) (ihh a hct hb)

/-- The SAS per-phy loop yields one record per phy. -/
theorem sasPhyLoop_length (ucp : List Nat) (phys : Nat) :
    ∀ (n poff : Nat), (sasPhyLoop ucp phys n poff).length = n := by
  intro n
  induction n with
  | zero => intro poff; rfl
  | succ n ihn => intro poff; simp [sasPhyLoop, ihn]

/-- The `j`-th record of the SAS per-phy loop is read at `poff + 28 * j`. -/
theorem sasPhyLoop_get (ucp : List Nat) (phys : Nat) :
    ∀ (n poff j : Nat), j < n →
      (sasPhyLoop ucp phys n poff)[j]? =
        some (mkSasPhy ucp phys (poff + 28 * j)) := by
  intro n
  induction n with
  | zero => intro poff j hj; exact absurd hj (Nat.not_lt_zero j)
  | succ n ihn =>
    intro poff j hj
    cases j with
    | zero => simp [sasPhyLoop]
    | succ j =>
      have h := ihn (poff + 28) j (by omega)
      have hx : poff + 28 + 28 * j = poff + 28 * (j + 1) := by ring
      rw [hx] at h
      simpa [sasPhyLoop] using h

/-- Any successfully returned header list of the element-type loop has at
most 512 entries: the `k >= MX_ELEM_HDR` check fires first otherwise. -/
theorem popElemWalk_done_le (resp : List Nat) (resp_len : Nat) :
    ∀ (r k off : Nat) (acc l : List ElementHdr),
      acc.length = k → k ≤ 512 →
      popElemWalk resp resp_len r k off acc = .done l → l.length ≤ 512 := by
  intro r
  induction r with
  | zero =>
    intro k off acc l hlen hk hdone
    simp only [popElemWalk] at hdone
    injection hdone with h
    rw [← h]
    simpa [hlen] using hk
  | succ r ihr =>
    intro k off acc l hlen hk hdone
    simp only [popElemWalk] at hdone
    by_cases hg : off + 4 > resp_len - 1
    · rw [if_pos hg] at hdone; exact absurd hdone (by simp)
    · rw [if_neg hg] at hdone
      by_cases hk5 : k ≥ 512
      · rw [if_pos hk5] at hdone; exact absurd hdone (by simp)
      · rw [if_neg hk5] at hdone
        exact ihr (k + 1) (off + 4) _ l (by simp [hlen]) (by omega) hdone

/-- When more than 512 element-type records remain and the next 513 reads
are in bounds, the loop returns `tooMany` (C: "too many elements"). -/
theorem popElemWalk_tooMany (resp : List Nat) (resp_len : Nat) :
    ∀ (d r k off : Nat) (acc : List ElementHdr),
      d = 512 - k → k ≤ 512 → 513 ≤ r + k →
      (∀ i, i ≤ d → off + 4 * i + 4 ≤ resp_len - 1) →
      popElemWalk resp resp_len r k off acc = .tooMany := by
  intro d
  induction d with
  | zero =>
    intro r k off acc hd hk hr hbnd
    obtain ⟨r', rfl⟩ : ∃ r', r = r' + 1 := ⟨r - 1, by omega⟩
    simp only [popElemWalk]
    rw [if_neg (by have := hbnd 0 (by omega); omega), if_pos (by omega)]
  | succ d ihd =>
    intro r k off acc hd hk hr hbnd
    obtain ⟨r', rfl⟩ : ∃ r', r = r' + 1 := ⟨r - 1, by omega⟩
    simp only [popElemWalk]
    rw [if_neg (by have := hbnd 0 (by omega); omega), if_neg (by omega)]
    exact ihd r' (k + 1) (off + 4) _ (by omega) (by omega) (by omega)
      (fun i hi => by have := hbnd (i + 1) (by omega); omega)

/-! ## Claim theorems -/

/-- C1: for every element-keyed page (Enclosure Status 0x02, Threshold In
0x05, Element Descriptor 0x07, Device Element Status 0x0a), when the
fetched target page carries a generation code different from the one
recorded while building the element map, the decoder emits only the page
header lines, the generation code, and the retryable "state of enclosure
changed, please try again" message, and decodes no overall or individual
element record. -/
theorem stale_guard_blocks_decoders (ehp : List ElementHdr) (ref : Nat)
    (resp : List Nat) (resp_len : Nat) (ih fl : Bool)
    (h8 : 8 ≤ resp_len) (hne : ref ≠ be32 resp 4) :
    ses_enclosure_sdg ehp ref resp resp_len ih fl =
      [.pageHeader "Enclosure status diagnostic page",
       .info "INVOP=, INFO=, NON-CRIT=, CRIT=, UNRECOV="
         [(b01 (byteAt resp 1 &&& 0x10) : Int), (b01 (byteAt resp 1 &&& 0x8) : Int),
          (b01 (byteAt resp 1 &&& 0x4) : Int), (b01 (byteAt resp 1 &&& 0x2) : Int),
          (b01 (byteAt resp 1 &&& 0x1) : Int)],
       .genCode (be32 resp 4), .stale] ∧
    ses_threshold_sdg ehp ref resp resp_len ih =
      [.pageHeader "Threshold In diagnostic page",
       .info "INVOP=" [(b01 (byteAt resp 1 &&& 0x10) : Int)],
       .genCode (be32 resp 4), .stale] ∧
    ses_element_desc_sdg ehp ref resp resp_len =
      [.pageHeader "Element descriptor In diagnostic page",
       .genCode (be32 resp 4), .stale] ∧
    ses_device_elem_sdg ehp ref resp resp_len =
      [.pageHeader "Device element status diagnostic page",
       .genCode (be32 resp 4), .stale] := by
  have h4 : ¬ resp_len < 4 := by omega
  have h8' : ¬ resp_len < 8 := by omega
  refine ⟨?_, ?_, ?_, ?_⟩
  · unfold ses_enclosure_sdg
    rw [if_neg h4, if_neg h8', if_pos hne]
  · unfold ses_threshold_sdg
    rw [if_neg h4, if_neg h8', if_pos hne]
  · unfold ses_element_desc_sdg
    rw [if_neg h4, if_neg h8', if_pos hne]
  · unfold ses_device_elem_sdg
    rw [if_neg h4, if_pos hne]

/-- C1 witness: the stale path on a concrete page with generation code 5
against reference generation 0. -/
theorem stale_guard_blocks_decoders_witness :
    ses_enclosure_sdg [] 0 staleB 12 false false =
      [.pageHeader "Enclosure status diagnostic page",
       .info "INVOP=, INFO=, NON-CRIT=, CRIT=, UNRECOV="
         [(b01 (byteAt staleB 1 &&& 0x10) : Int), (b01 (byteAt staleB 1 &&& 0x8) : Int),
          (b01 (byteAt staleB 1 &&& 0x4) : Int), (b01 (byteAt staleB 1 &&& 0x2) : Int),
          (b01 (byteAt staleB 1 &&& 0x1) : Int)],
       .genCode (be32 staleB 4), .stale] ∧
    ses_threshold_sdg [] 0 staleB 12 false =
      [.pageHeader "Threshold In diagnostic page",
       .info "INVOP=" [(b01 (byteAt staleB 1 &&& 0x10) : Int)],
       .genCode (be32 staleB 4), .stale] ∧
    ses_element_desc_sdg [] 0 staleB 12 =
      [.pageHeader "Element descriptor In diagnostic page",
       .genCode (be32 staleB 4), .stale] ∧
    ses_device_elem_sdg [] 0 staleB 12 =
      [.pageHeader "Device element status diagnostic page",
       .genCode (be32 staleB 4), .stale] :=
  stale_guard_blocks_decoders [] 0 staleB 12 false false (by decide) (by decide)

/-- C2 counterexample: for a request of page 0x02 that reaches the decode
path, the sequence of transport receives is [2, 1] — the target page is
fetched first, the Configuration page (1) second — so the Configuration
fetch does not precede the target-page fetch. -/
theorem config_fetch_order_cex :
    ses_process_status_fetches (fun _ => some staleB) 2 false false = [2, 1] ∧
    ¬ (ses_process_status_fetches (fun _ => some staleB) 2 false false).indexOf 1 <
        (ses_process_status_fetches (fun _ => some staleB) 2 false false).indexOf 2 := by
  decide

/-- C2 (amended): for every element-keyed page request (2, 5, 7, 0x0a)
reaching the decode path, the target page is fetched first and the
Configuration page is fetched second, by populate_element_hdr_arr, before
any decode. -/
theorem target_page_fetched_before_config (fetch : Nat → Option (List Nat))
    (pc : Nat) (rsp : List Nat)
    (hf : fetch pc = some rsp) (hpc : byteAt rsp 0 = pc)
    (hk : pc = 2 ∨ pc = 5 ∨ pc = 7 ∨ pc = 10) :
    ses_process_status_fetches fetch pc false false = [pc, 1] := by
  simp [ses_process_status_fetches, hf, hpc, hk]

/-- C2 witness: page 0x02 with a matching response page code. -/
theorem target_page_fetched_before_config_witness :
    ses_process_status_fetches (fun _ => some enclB) 2 false false = [2, 1] :=
  target_page_fetched_before_config (fun _ => some enclB) 2 enclB rfl
    (by decide) (by decide)

/-- C3: evaluation at the failing inputs.  The Scenario-A configuration
page (generation bytes 9 9 9 9) decodes in full without truncation; cut to
declared length 4, the decoder still renders a generation code, read from
offsets 4..7 beyond the declared length, so the output differs from the
output on a buffer that agrees on the declared prefix.  Likewise the
enclosure-status page enclB for one Device type with 2 elements decodes in
full at length 20; cut to length 13 it completes with no Truncated report
and its individual element records change when the bytes beyond the
declared length change. -/
theorem truncation_oob_eval :
    Event.truncatedMsg ∉ ses_configuration_sdg (cfgScenA 9 9 9 9) 60 ∧
    Event.genCode 0x09090909 ∈ ses_configuration_sdg (cfgScenA 9 9 9 9) 4 ∧
    ses_configuration_sdg (cfgScenA 9 9 9 9) 4 ≠
      ses_configuration_sdg ((cfgScenA 9 9 9 9).take 4) 4 ∧
    Event.truncatedMsg ∉ ses_enclosure_sdg ehpE 7 enclB 20 true false ∧
    Event.truncatedMsg ∉ ses_enclosure_sdg ehpE 7 enclB 13 true false ∧
    ses_enclosure_sdg ehpE 7 enclB 13 true false ≠
      ses_enclosure_sdg ehpE 7 (enclB.take 13) 13 true false := by
  decide

/-- C4: evaluation at the failing inputs.  The element-descriptor page edB
(one type, one element) decodes in full at length 20 with no truncation;
cut to length 13 it still completes with no Truncated report, and the
per-element record read (length field at offsets 16..17, text at 18..19,
all past the declared end) changes the output when those bytes change.
The subenclosure help page helpB behaves the same for its text bytes. -/
theorem variable_walk_unguarded_eval :
    Event.truncatedMsg ∉ ses_element_desc_sdg ehpD 3 edB 20 ∧
    Event.truncatedMsg ∉ ses_element_desc_sdg ehpD 3 edB 13 ∧
    ses_element_desc_sdg ehpD 3 edB 13 ≠
      ses_element_desc_sdg ehpD 3 (edB.take 13) 13 ∧
    Event.truncatedMsg ∉ ses_subenc_help_sdg helpB 18 ∧
    Event.truncatedMsg ∉ ses_subenc_help_sdg helpB 13 ∧
    ses_subenc_help_sdg helpB 13 ≠ ses_subenc_help_sdg (helpB.take 13) 13 := by
  decide

/-- C5: parsing the Scenario-A Configuration page — 1 subenclosure,
element types Device (3 possible) and Power supply (1 possible) — yields
exactly the headers [(1,3,0), (2,1,0)] in encounter order together with
the 32-bit big-endian generation code from offset 4; with concrete
generation bytes 0x12 0x34 0x56 0x78 that code is 0x12345678, and type
codes 1 and 2 are the catalog entries "Device" and "Power supply". -/
theorem config_scenarioA_parse (g0 g1 g2 g3 : Nat) :
    populate_parse (cfgScenA g0 g1 g2 g3) =
      .ok [⟨1, 3, 0⟩, ⟨2, 1, 0⟩]
        ((g0 <<< 24) ||| (g1 <<< 16) ||| (g2 <<< 8) ||| g3) ∧
    populate_parse (cfgScenA 0x12 0x34 0x56 0x78) =
      .ok [⟨1, 3, 0⟩, ⟨2, 1, 0⟩] 0x12345678 ∧
    find_element_desc 1 = some "Device" ∧
    find_element_desc 2 = some "Power supply" := by
  refine ⟨?_, by decide, by decide, by decide⟩
  rfl

/-- C5 witness: the Scenario-A parse at generation bytes 0x12 0x34 0x56
0x78. -/
theorem config_scenarioA_parse_witness :
    populate_parse (cfgScenA 0x12 0x34 0x56 0x78) =
      .ok [⟨1, 3, 0⟩, ⟨2, 1, 0⟩]
        (((0x12 : Nat) <<< 24) ||| ((0x34 : Nat) <<< 16) |||
          ((0x56 : Nat) <<< 8) ||| (0x78 : Nat)) :=
  (config_scenarioA_parse 0x12 0x34 0x56 0x78).1

/-- C6 counterexample: decoding the Device status record
[0x01, 0x05, 0xA0, 0x12] yields status "OK" (entry 1 of the status table,
not "Critical", which is entry 2), and Enc bypassed A = 1 (0xA0 has bit 5
set): the line claimed by the spec, with status Critical and
enc_bypassed_A false, does not occur in the output. -/
theorem device_status_scenarioB_cex :
    (print_over_elem_status [0x01, 0x05, 0xA0, 0x12] 1 false).head? =
      some ("Predicted failure=, swap=, status: OK", [0, 0]) ∧
    ("Predicted failure=, swap=, status: Critical", ([0, 0] : List Int)) ∉
      print_over_elem_status [0x01, 0x05, 0xA0, 0x12] 1 false ∧
    ("App client bypassed A=, Do not remove=, Enc bypassed A=",
        ([1, 0, 1] : List Int)) ∈
      print_over_elem_status [0x01, 0x05, 0xA0, 0x12] 1 false ∧
    ("App client bypassed A=, Do not remove=, Enc bypassed A=",
        ([1, 0, 0] : List Int)) ∉
      print_over_elem_status [0x01, 0x05, 0xA0, 0x12] 1 false := by
  decide

/-- C6 (amended): the record [0x01, 0x05, 0xA0, 0x12] decodes to status
"OK", predicted_failure = 0, slot_address = 5, app_client_bypassed_A = 1,
and enc_bypassed_A = 1, with the field positions as claimed (status from
byte 0 low nibble via the name table, predicted failure bit 6 of byte 0,
slot address byte 1, bypass flags bits 7 and 5 of byte 2). -/
theorem device_status_scenarioB_decode :
    print_over_elem_status [0x01, 0x05, 0xA0, 0x12] 1 false =
      [("Predicted failure=, swap=, status: OK", [0, 0]),
       ("Slot address: ", [5]),
       ("App client bypassed A=, Do not remove=, Enc bypassed A=", [1, 0, 1]),
       ("Enc bypassed B=, Ready to insert=, RMV=, Ident=", [0, 0, 0, 0]),
       ("Report=, App client bypassed B=, Fault sensed=, Fault requested=",
        [0, 0, 0, 0]),
       ("Device off=, Bypassed A=, Bypassed B=, Device bypassed A=", [1, 0, 0, 1]),
       ("Device bypassed B=", [0])] ∧
    element_status_desc.getD ((0x01 : Nat) &&& 0xf) "" = "OK" ∧
    element_status_desc.getD 2 "" = "Critical" := by
  decide

/-- C7 counterexample: a UPS threshold record whose byte 0 is zero still
renders literal numbers (from bytes 2 and 3), and a record whose byte 0 is
nonzero renders the vendor marker for both thresholds when bytes 2 and 3
are zero; the marker literal is "<vendor>", not "<vendor-specific>". -/
theorem ups_threshold_sentinel_cex :
    ses_threshold_helper [0, 0, 5, 7] 0xb (-1) false =
      [("Overall threshold: low warning=5", []),
       ("low critical=7 (in minutes)", [])] ∧
    ses_threshold_helper [9, 9, 0, 0] 0xb (-1) false =
      [("Overall threshold: low warning=<vendor>", []),
       ("low critical=<vendor> (in minutes)", [])] := by
  decide

/-- C7 (amended): for every UPS (type 0x0b) threshold record, bytes 2 and
3 (low warning, low critical) each act as the vendor-specific sentinel —
value 0 renders the "<vendor>" marker, a nonzero value renders the literal
number — and the output is independent of bytes 0 and 1. -/
theorem ups_threshold_sentinel_bytes23 (b0 b0' b1 b1' b2 b3 : Nat) (p : Int) :
    ses_threshold_helper [b0, b1, b2, b3] 0xb p false =
      ses_threshold_helper [b0', b1', b2, b3] 0xb p false ∧
    ses_threshold_helper [b0, b1, b2, b3] 0xb p false =
      [((if p < 0 then "Overall threshold"
         else "Element " ++ toString (p + 1) ++ " threshold") ++
          ": low warning=" ++ (if b2 = 0 then "<vendor>" else toString b2), []),
       ("low critical=" ++ (if b3 = 0 then "<vendor>" else toString b3) ++
          " (in minutes)", [])] :=
  ⟨rfl, rfl⟩

/-- C7 witness: record [1, 3, 0, 9] — byte 2 zero gives the vendor marker
for the low warning, byte 3 = 9 gives the literal, independent of bytes 0
and 1. -/
theorem ups_threshold_sentinel_bytes23_witness :
    ses_threshold_helper [1, 3, 0, 9] 0xb (-1) false =
      ses_threshold_helper [2, 4, 0, 9] 0xb (-1) false ∧
    ses_threshold_helper [1, 3, 0, 9] 0xb (-1) false =
      [((if (-1 : Int) < 0 then "Overall threshold"
         else "Element " ++ toString ((-1 : Int) + 1) ++ " threshold") ++
          ": low warning=" ++
          (if (0 : Nat) = 0 then "<vendor>" else toString (0 : Nat)), []),
       ("low critical=" ++
          (if (9 : Nat) = 0 then "<vendor>" else toString (9 : Nat)) ++
          " (in minutes)", [])] :=
  ups_threshold_sentinel_bytes23 1 2 3 4 0 9 (-1)

/-- C8: the supported-pages decoder resolves the bytes from offset 4
through the page-code catalog and stops at the first byte numerically
below its predecessor, treating the rest as padding; in particular, for
bytes [0x00, 0x01, 0x02, 0x00] at offset 4 it stops after 0x02 and yields
exactly pages 0, 1, 2 with their catalog descriptions. -/
theorem supported_pages_stop_rule (resp : List Nat) (resp_len : Nat)
    (l1 l2 : List Nat) (b : Nat)
    (hpb : pageBytes resp resp_len = l1 ++ b :: l2)
    (hchain : List.Chain (· ≤ ·) 0 l1)
    (hb : b < (0 :: l1).getLast (List.cons_ne_nil _ _)) :
    ses_supported_pages_sdg resp resp_len =
      l1.map (fun code => ((find_page_code_desc code).getD "<unknown>", code)) ∧
    ses_supported_pages_sdg [0, 0, 0, 4, 0, 1, 2, 0] 8 =
      [("Supported diagnostic pages", 0), ("Configuration (SES)", 1),
       ("Enclosure status/control (SES)", 2)] := by
  refine ⟨?_, by decide⟩
  unfold ses_supported_pages_sdg
  rw [hpb, supportedWalk_append_stop 0 l1 b l2 hchain hb]

/-- C8 witness: the Scenario-D page applied to the stop rule. -/
theorem supported_pages_stop_rule_witness :
    ses_supported_pages_sdg [0, 0, 0, 4, 0, 1, 2, 0] 8 =
      ([0, 1, 2] : List Nat).map
        (fun code => ((find_page_code_desc code).getD "<unknown>", code)) :=
  (supported_pages_stop_rule [0, 0, 0, 4, 0, 1, 2, 0] 8 [0, 1, 2] [] 0
    (by decide)
    (List.Chain.cons (Nat.le_refl 0)
      (List.Chain.cons (Nat.zero_le 1)
        (List.Chain.cons (Nat.le_succ 1) List.Chain.nil)))
    (by decide)).1

/-- C9: in the SAS transport descriptor decoding, every per-phy record of a
descriptor with phy count n carries the printed label n + 1 — computed
from the phy count, not the loop index — while the j-th record is still
read 28 bytes further than its predecessor, at offset 4 + 28 * j. -/
theorem sas_phy_label_uses_count (ucp : List Nat) (len elem_num j : Nat)
    (h6 : 0xf &&& byteAt ucp 0 = 6) (hj : j < byteAt ucp 2) :
    ses_transport_proto ucp len elem_num =
      .sas (elem_num + 1) (byteAt ucp 2) (byteAt ucp 3 &&& 1)
        (sasPhyLoop ucp (byteAt ucp 2) (byteAt ucp 2) 4) ∧
    (sasPhyLoop ucp (byteAt ucp 2) (byteAt ucp 2) 4).length = byteAt ucp 2 ∧
    (sasPhyLoop ucp (byteAt ucp 2) (byteAt ucp 2) 4)[j]? =
      some (mkSasPhy ucp (byteAt ucp 2) (4 + 28 * j)) ∧
    (mkSasPhy ucp (byteAt ucp 2) (4 + 28 * j)).label = byteAt ucp 2 + 1 := by
  refine ⟨?_, sasPhyLoop_length ucp (byteAt ucp 2) (byteAt ucp 2) 4, ?_, rfl⟩
  · unfold ses_transport_proto
    rw [if_neg (by rw [h6]; decide), if_pos h6]
  · exact sasPhyLoop_get ucp (byteAt ucp 2) (byteAt ucp 2) 4 j hj

/-- C9 witness: a SAS descriptor with 2 phys; the second record (j = 1) is
labelled 3 = phys + 1 and read at offset 32 = 4 + 28. -/
theorem sas_phy_label_uses_count_witness :
    ses_transport_proto sasW 20 0 =
      .sas 1 (byteAt sasW 2) (byteAt sasW 3 &&& 1)
        (sasPhyLoop sasW (byteAt sasW 2) (byteAt sasW 2) 4) ∧
    (sasPhyLoop sasW (byteAt sasW 2) (byteAt sasW 2) 4).length = byteAt sasW 2 ∧
    (sasPhyLoop sasW (byteAt sasW 2) (byteAt sasW 2) 4)[1]? =
      some (mkSasPhy sasW (byteAt sasW 2) (4 + 28 * 1)) ∧
    (mkSasPhy sasW (byteAt sasW 2) (4 + 28 * 1)).label = byteAt sasW 2 + 1 :=
  sas_phy_label_uses_count sasW 20 0 1 (by decide) (by decide)

/-- C10: building the element map writes at most 512 (MX_ELEM_HDR)
headers: every successful parse returns at most 512 headers, and when the
declared element-type count exceeds 512 with the records in bounds,
populate_element_hdr_arr stops with the "too many elements" error before
storing a 513th header. -/
theorem element_hdr_bound (resp : List Nat) (off sum : Nat)
    (h1 : byteAt resp 0 = 1)
    (h2 : popSubencWalk resp (respLenOf resp) (byteAt resp 1 + 1) 8 0 =
      some (off, sum))
    (h3 : 513 ≤ sum)
    (h4 : ∀ i, i ≤ 512 → off + 4 * i + 4 ≤ respLenOf resp - 1) :
    populate_parse resp = .tooManyElements ∧
    ∀ (resp' : List Nat) (hdrs : List ElementHdr) (g : Nat),
      populate_parse resp' = .ok hdrs g → hdrs.length ≤ 512 := by
  constructor
  · have hm := popElemWalk_tooMany resp (respLenOf resp) 512 sum 0 off []
      (by omega) (by omega) (by omega) h4
    unfold populate_parse
    rw [if_neg (by simp [h1]), if_neg (by have := h4 0 (by omega); omega)]
    simp only [h2, populate_elem_part, hm]
  · intro resp' hdrs g hok
    unfold populate_parse at hok
    by_cases hp : byteAt resp' 0 ≠ 1
    · rw [if_pos hp] at hok; exact absurd hok (by simp)
    · rw [if_neg hp] at hok
      by_cases hl : respLenOf resp' < 4
      · rw [if_pos hl] at hok; exact absurd hok (by simp)
      · rw [if_neg hl] at hok
        cases hw : popSubencWalk resp' (respLenOf resp')
            (byteAt resp' 1 + 1) 8 0 with
        | none => rw [hw] at hok; exact absurd hok (by simp)
        | some p =>
          obtain ⟨o, s⟩ := p
          rw [hw] at hok
          simp only [populate_elem_part] at hok
          cases he : popElemWalk resp' (respLenOf resp') s 0 o [] with
          | truncated => rw [he] at hok; exact absurd hok (by simp)
          | tooMany => rw [he] at hok; exact absurd hok (by simp)
          | done l =>
            rw [he] at hok
            simp only [PopResult.ok.injEq] at hok
            obtain ⟨rfl, -⟩ := hok
            exact popElemWalk_done_le resp' (respLenOf resp') s 0 o [] l
              rfl (by omega) he

set_option maxRecDepth 4000 in
/-- C10 witness: a Configuration page declaring 513 element types across 3
subenclosures, with all 513 records in bounds, is rejected with the
too-many-elements error. -/
theorem element_hdr_bound_witness :
    populate_parse cfgMany = PopResult.tooManyElements :=
  (element_hdr_bound cfgMany 128 513 (by decide) (by decide) (by decide)
    (by decide)).1

end SgSes
